import Mathlib

/-!
Verification of the protocol core of the `walrus-seal-ui` client.

The development shallowly embeds the two protocol services of the
repository:

* `WalrusService` (`src/services/walrus.ts`): the commit pipeline
  `store` = purchase storage → upload blob → register on chain →
  certify on chain, together with its helper phases
  `purchaseStorage`, `uploadBlob`, `registerBlob`, `certifyBlob`.
* `SealService` (`src/services/seal.ts`): `encrypt`, `decrypt`,
  `createSessionKeyInternal`, `signSessionKey`, `verifyKeyServers`.

Network and chain effects are modelled by explicit oracles
(`WalrusEnv`, `SealEnv`): a pure function from the request issued by
the code to the response the outside world returns in the execution
under consideration.  Every outward call the code makes is recorded in
an event trace, so temporal statements (ordering of chain calls,
at-most-once purchase) are statements about that trace.  Bytes are
`List Nat`; JavaScript strings are Lean `String`s, manipulated through
their character data.
-/

set_option autoImplicit false

namespace WalrusSeal

/-! ## Walrus data model (from `src/types/walrus.ts` and `walrus.ts`) -/

/-- Options accepted by `WalrusService.store`
(`WalrusStoreOptions` in `src/types/walrus.ts`; the pipeline itself
only reads `epochs`). -/
structure WalrusStoreOptions where
  epochs : Nat
  permanent : Bool
  deletable : Bool
deriving DecidableEq, Repr

/-- Result of a successful commit (`WalrusStoreResult`). -/
structure WalrusStoreResult where
  blobId : String
  suiObjectId : String
  epochs : Nat
  cost : Nat
  gasUsed : Nat
deriving DecidableEq, Repr

/-- The availability certificate assembled by `uploadBlob` from the
response of the publisher: `blobId`, `epochNumber`, `nodes`, `signatures`. -/
structure AvailabilityCertificate where
  blobId : String
  epochNumber : Nat
  nodes : List String
  signatures : List (List Nat)
deriving DecidableEq, Repr

/-- Client configuration used by the commit pipeline
(`WalrusConfig`; only the publisher endpoint matters to `store`). -/
structure WalrusConfig where
  aggregator : String
  publisher : String
deriving DecidableEq, Repr

/-- One on-chain move call submitted through `signTransaction`.
The constructors mirror the three `tx.moveCall` targets of the
pipeline: `storage::purchase(epochs, size)`,
`blob::register(blobId, storageObjectId)` and
`blob::certify(blobId, epochNumber, nodes, signatures)`. -/
inductive ChainCall where
  | purchase (epochs size : Nat)
  | register (blobId storageObjectId : String)
  | certify (blobId : String) (epochNumber : Nat)
      (nodes : List String) (signatures : List (List Nat))
deriving DecidableEq, Repr

/-- The storage purchase event `storage::StoragePurchased` as read by
`purchaseStorage` (`parsedJson.storage_id`, `parsedJson.cost`). -/
structure StorageEvent where
  storage_id : String
  cost : Nat
deriving DecidableEq, Repr

/-- The part of a transaction response that the pipeline inspects:
the optional `storage::StoragePurchased` event, the list of created
object ids (`effects.created[..].reference.objectId`) and the gas it
reports. -/
structure TxResult where
  storageEvent : Option StorageEvent
  created : List String
  gasUsed : Nat
deriving DecidableEq, Repr

/-- An HTTP request as issued by `uploadBlob`: method, URL, raw body
bytes. -/
structure HttpRequest where
  method : String
  url : String
  body : List Nat
deriving DecidableEq, Repr

/-- Response of the publisher to the upload request, as consumed by
`uploadBlob`: HTTP status plus the JSON fields it reads. -/
structure UploadResponse where
  ok : Bool
  statusText : String
  blobId : String
  epochNumber : Nat
  nodes : List String
  signatures : List (List Nat)
deriving DecidableEq, Repr

/-- The outside world for one execution of the pipeline: what the
chain answers to each submitted call and what the publisher answers
to each HTTP request. -/
structure WalrusEnv where
  chain : ChainCall → TxResult
  http : HttpRequest → UploadResponse

/-- An outward call recorded in the execution trace. -/
inductive Event where
  | chainCall (c : ChainCall)
  | httpCall (r : HttpRequest)
deriving DecidableEq, Repr

/-- The failures the embedded pipeline can raise, one constructor per
`throw new Error(...)` site reachable from `store`. -/
inductive StoreError where
  /-- Thrown as `No files provided`. -/
  | noFiles
  /-- Thrown as `Blob upload failed` plus the status text. -/
  | uploadFailed (statusText : String)
  /-- Thrown as `Storage purchase failed - no storage event found`. -/
  | storagePurchaseFailed
  /-- Thrown as `Blob registration failed - no object created`. -/
  | registrationFailed
deriving DecidableEq, Repr

/-- Result of the `purchaseStorage` phase: reservation object id,
cost and gas from the purchase event. -/
structure PurchaseResult where
  objectId : String
  cost : Nat
  gasUsed : Nat
deriving DecidableEq, Repr

/-! ## Walrus commit pipeline (from `src/services/walrus.ts`) -/

/-- Phase 1, `WalrusService.purchaseStorage`: submit
`storage::purchase(epochs, size)` and read the
`StoragePurchased` event; no event means failure. -/
def purchaseStorage (env : WalrusEnv) (epochs size : Nat) :
    Except StoreError PurchaseResult × List Event :=
  let tx := ChainCall.purchase epochs size
  let result := env.chain tx
  match result.storageEvent with
  | none => (.error .storagePurchaseFailed, [.chainCall tx])
  | some ev => (.ok ⟨ev.storage_id, ev.cost, result.gasUsed⟩, [.chainCall tx])

/-- The upload request built by `uploadBlob`:
`PUT {publisher}/v1/store` with the raw bytes as body. -/
def uploadRequest (cfg : WalrusConfig) (data : List Nat) : HttpRequest :=
  ⟨"PUT", cfg.publisher ++ "/v1/store", data⟩

/-- Phase 2, `WalrusService.uploadBlob`: issue the upload request and
assemble the availability certificate from the response JSON. -/
def uploadBlob (cfg : WalrusConfig) (env : WalrusEnv) (data : List Nat) :
    Except StoreError AvailabilityCertificate × List Event :=
  let req := uploadRequest cfg data
  let resp := env.http req
  if resp.ok then
    (.ok ⟨resp.blobId, resp.epochNumber, resp.nodes, resp.signatures⟩, [.httpCall req])
  else
    (.error (.uploadFailed resp.statusText), [.httpCall req])

/-- Phase 3, `WalrusService.registerBlob`: submit
`blob::register(blobId, storageObjectId)` and return the object id of
the first created object; an empty `created` list is a failure. -/
def registerBlob (env : WalrusEnv) (blobId storageObjectId : String) :
    Except StoreError String × List Event :=
  let tx := ChainCall.register blobId storageObjectId
  let result := env.chain tx
  match result.created.head? with
  | none => (.error .registrationFailed, [.chainCall tx])
  | some objId => (.ok objId, [.chainCall tx])

/-- Phase 4, `WalrusService.certifyBlob`: submit
`blob::certify(blobId, epochNumber, nodes, signatures)`; the response
is not inspected. -/
def certifyBlob (cert : AvailabilityCertificate) : List Event :=
  [.chainCall (.certify cert.blobId cert.epochNumber cert.nodes cert.signatures)]

/-- `WalrusService.store`: the four-phase commit pipeline, with each
phase run only if the previous one succeeded, and the trace of
outward calls it issues. -/
def store (cfg : WalrusConfig) (env : WalrusEnv) (files : List (List Nat))
    (options : WalrusStoreOptions) :
    Except StoreError WalrusStoreResult × List Event :=
  match files with
  | [] => (.error .noFiles, [])
  | file :: _ =>
    match purchaseStorage env options.epochs file.length with
    | (.error e, t1) => (.error e, t1)
    | (.ok storage, t1) =>
      match uploadBlob cfg env file with
      | (.error e, t2) => (.error e, t1 ++ t2)
      | (.ok cert, t2) =>
        match registerBlob env cert.blobId storage.objectId with
        | (.error e, t3) => (.error e, t1 ++ t2 ++ t3)
        | (.ok blobObjectId, t3) =>
          (.ok ⟨cert.blobId, blobObjectId, options.epochs, storage.cost, storage.gasUsed⟩,
           t1 ++ t2 ++ t3 ++ certifyBlob cert)

/-- Recognizer for purchase events in a trace. -/
def Event.isPurchase : Event → Bool
  | .chainCall (.purchase _ _) => true
  | _ => false

/-- Recognizer for register events in a trace. -/
def Event.isRegister : Event → Bool
  | .chainCall (.register _ _) => true
  | _ => false

/-- Recognizer for certify events in a trace. -/
def Event.isCertify : Event → Bool
  | .chainCall (.certify _ _ _ _) => true
  | _ => false

end WalrusSeal

namespace WalrusSeal

/-! ## Phase characterization lemmas -/

theorem purchaseStorage_none {env : WalrusEnv} {e s : Nat}
    (h : (env.chain (.purchase e s)).storageEvent = none) :
    purchaseStorage env e s =
      (.error .storagePurchaseFailed, [.chainCall (.purchase e s)]) := by
  simp [purchaseStorage, h]

theorem purchaseStorage_some {env : WalrusEnv} {e s : Nat} {ev : StorageEvent}
    (h : (env.chain (.purchase e s)).storageEvent = some ev) :
    purchaseStorage env e s =
      (.ok ⟨ev.storage_id, ev.cost, (env.chain (.purchase e s)).gasUsed⟩,
       [.chainCall (.purchase e s)]) := by
  simp [purchaseStorage, h]

theorem uploadBlob_ok {cfg : WalrusConfig} {env : WalrusEnv} {data : List Nat}
    (h : (env.http (uploadRequest cfg data)).ok = true) :
    uploadBlob cfg env data =
      (.ok ⟨(env.http (uploadRequest cfg data)).blobId,
            (env.http (uploadRequest cfg data)).epochNumber,
            (env.http (uploadRequest cfg data)).nodes,
            (env.http (uploadRequest cfg data)).signatures⟩,
       [.httpCall (uploadRequest cfg data)]) := by
  simp [uploadBlob, h]

theorem uploadBlob_err {cfg : WalrusConfig} {env : WalrusEnv} {data : List Nat}
    (h : (env.http (uploadRequest cfg data)).ok = false) :
    uploadBlob cfg env data =
      (.error (.uploadFailed (env.http (uploadRequest cfg data)).statusText),
       [.httpCall (uploadRequest cfg data)]) := by
  simp [uploadBlob, h]

theorem registerBlob_none {env : WalrusEnv} {bid sid : String}
    (h : (env.chain (.register bid sid)).created.head? = none) :
    registerBlob env bid sid =
      (.error .registrationFailed, [.chainCall (.register bid sid)]) := by
  simp [registerBlob, h]

theorem registerBlob_some {env : WalrusEnv} {bid sid oid : String}
    (h : (env.chain (.register bid sid)).created.head? = some oid) :
    registerBlob env bid sid = (.ok oid, [.chainCall (.register bid sid)]) := by
  simp [registerBlob, h]

/-! ## A concrete environment used for counterexamples and witnesses -/

/-- Concrete client configuration. -/
def sampleConfig : WalrusConfig :=
  ⟨"https://aggregator.example", "https://publisher.example"⟩

/-- Concrete chain oracle: purchase yields a storage event, register
creates one object, certify is accepted. -/
def sampleChain : ChainCall → TxResult
  | .purchase _ _ => ⟨some ⟨"storage-object-1", 100⟩, [], 10⟩
  | .register _ _ => ⟨none, ["blob-object-1"], 5⟩
  | .certify _ _ _ _ => ⟨none, [], 3⟩

/-- Concrete publisher oracle: the upload succeeds but the response
carries an empty signature list (zero attesting signatures). -/
def sampleHttp : HttpRequest → UploadResponse :=
  fun _ => ⟨true, "OK", "blob-1", 3, [], []⟩

/-- The concrete environment combining `sampleChain` and `sampleHttp`. -/
def sampleEnv : WalrusEnv := ⟨sampleChain, sampleHttp⟩

/-- Concrete store options: 5 epochs, not permanent, deletable. -/
def sampleOptions : WalrusStoreOptions := ⟨5, false, true⟩

example :
    store sampleConfig sampleEnv [[1, 2, 3]] sampleOptions =
      (.ok ⟨"blob-1", "blob-object-1", 5, 100, 10⟩,
       [.chainCall (.purchase 5 3),
        .httpCall ⟨"PUT", "https://publisher.example/v1/store", [1, 2, 3]⟩,
        .chainCall (.register "blob-1" "storage-object-1"),
        .chainCall (.certify "blob-1" 3 [] [])]) := by
  rfl

end WalrusSeal

namespace WalrusSeal

/-- Recognizer for HTTP events in a trace. -/
def Event.isHttp : Event → Bool
  | .httpCall _ => true
  | _ => false

/-- Claim C1 counterexample: in `sampleEnv` the upload
response carries zero attesting signatures, yet `store` succeeds and
both the register and the certify chain calls are issued — the
pipeline never compares the signature count to any quorum and has no
`QuorumNotReached` failure. -/
theorem c1_counterexample :
    (sampleHttp (uploadRequest sampleConfig [1, 2, 3])).signatures.length = 0 ∧
    (store sampleConfig sampleEnv [[1, 2, 3]] sampleOptions).fst =
      .ok ⟨"blob-1", "blob-object-1", 5, 100, 10⟩ ∧
    ((store sampleConfig sampleEnv [[1, 2, 3]] sampleOptions).snd.filter
      Event.isRegister).length = 1 ∧
    ((store sampleConfig sampleEnv [[1, 2, 3]] sampleOptions).snd.filter
      Event.isCertify).length = 1 :=
  ⟨rfl, rfl, rfl, rfl⟩

/-- Claim C1 (amended): the commit pipeline performs no signature-count
(quorum) check on the availability certificate.  Whenever the purchase
event, the upload HTTP status and the register call succeed, `store`
succeeds and submits the certify call, whatever signature list the
certificate carries — in particular also when it is empty. -/
theorem c1_certify_reached_for_any_signature_count
    (cfg : WalrusConfig) (env : WalrusEnv) (file : List Nat) (rest : List (List Nat))
    (opts : WalrusStoreOptions) (ev : StorageEvent) (oid : String)
    (hp : (env.chain (.purchase opts.epochs file.length)).storageEvent = some ev)
    (hu : (env.http (uploadRequest cfg file)).ok = true)
    (hr : (env.chain (.register (env.http (uploadRequest cfg file)).blobId
            ev.storage_id)).created.head? = some oid) :
    (store cfg env (file :: rest) opts).fst =
      .ok ⟨(env.http (uploadRequest cfg file)).blobId, oid, opts.epochs, ev.cost,
           (env.chain (.purchase opts.epochs file.length)).gasUsed⟩ ∧
    Event.chainCall (.certify (env.http (uploadRequest cfg file)).blobId
        (env.http (uploadRequest cfg file)).epochNumber
        (env.http (uploadRequest cfg file)).nodes
        (env.http (uploadRequest cfg file)).signatures) ∈
      (store cfg env (file :: rest) opts).snd := by
  simp only [store, purchaseStorage_some hp, uploadBlob_ok hu, registerBlob_some hr,
    certifyBlob]
  simp

/-- Claim C1 witness: the amended theorem applied to the concrete
environment, whose upload response has an empty signature list. -/
theorem c1_witness :
    (store sampleConfig sampleEnv [[1, 2, 3]] sampleOptions).fst =
      .ok ⟨"blob-1", "blob-object-1", 5, 100, 10⟩ ∧
    Event.chainCall (.certify "blob-1" 3 [] []) ∈
      (store sampleConfig sampleEnv [[1, 2, 3]] sampleOptions).snd :=
  c1_certify_reached_for_any_signature_count sampleConfig sampleEnv [1, 2, 3] []
    sampleOptions ⟨"storage-object-1", 100⟩ "blob-object-1" rfl rfl rfl

end WalrusSeal

namespace WalrusSeal

/-- Claim C2: in every execution of the commit pipeline, a certify
chain call appears in the trace only if a register chain call for the
same blob id appears strictly before it and that register call
returned a created object; and whenever the register response carries
no created object, `store` fails with the registration error and no
certify call is ever issued. -/
theorem c2_certify_only_after_register
    (cfg : WalrusConfig) (env : WalrusEnv) (files : List (List Nat))
    (opts : WalrusStoreOptions) :
    (∀ bid e n s, Event.chainCall (.certify bid e n s) ∈ (store cfg env files opts).snd →
      ∃ (sid : String) (i j : Nat), i < j ∧
        (store cfg env files opts).snd[i]? = some (Event.chainCall (.register bid sid)) ∧
        (store cfg env files opts).snd[j]? = some (Event.chainCall (.certify bid e n s)) ∧
        (env.chain (.register bid sid)).created.head?.isSome = true) ∧
    (∀ bid sid, Event.chainCall (.register bid sid) ∈ (store cfg env files opts).snd →
      (env.chain (.register bid sid)).created.head? = none →
      (store cfg env files opts).fst = .error .registrationFailed ∧
      (store cfg env files opts).snd.filter Event.isCertify = []) := by
  match files with
  | [] =>
    constructor
    · intro bid e n s hmem
      simp [store] at hmem
    · intro bid sid hmem
      simp [store] at hmem
  | file :: rest =>
    cases hp : (env.chain (.purchase opts.epochs file.length)).storageEvent with
    | none =>
      simp only [store, purchaseStorage_none hp]
      constructor
      · intro bid e n s hmem
        simp at hmem
      · intro bid sid hmem
        simp at hmem
    | some ev =>
      cases hu : (env.http (uploadRequest cfg file)).ok with
      | false =>
        simp only [store, purchaseStorage_some hp, uploadBlob_err hu]
        constructor
        · intro bid e n s hmem
          simp at hmem
        · intro bid sid hmem
          simp at hmem
      | true =>
        cases hr : (env.chain (.register (env.http (uploadRequest cfg file)).blobId
            ev.storage_id)).created.head? with
        | none =>
          simp only [store, purchaseStorage_some hp, uploadBlob_ok hu, registerBlob_none hr]
          constructor
          · intro bid e n s hmem
            simp at hmem
          · intro bid sid hmem _
            simp at hmem
            obtain ⟨hbid, hsid⟩ := hmem
            subst hbid
            subst hsid
            simp [Event.isCertify]
        | some oid =>
          simp only [store, purchaseStorage_some hp, uploadBlob_ok hu, registerBlob_some hr,
            certifyBlob]
          constructor
          · intro bid e n s hmem
            simp at hmem
            obtain ⟨hbid, he, hn, hs⟩ := hmem
            subst hbid
            subst he
            subst hn
            subst hs
            refine ⟨ev.storage_id, 2, 3, by omega, by simp, by simp, by simp [hr]⟩
          · intro bid sid hmem hnone
            simp at hmem
            obtain ⟨hbid, hsid⟩ := hmem
            subst hbid
            subst hsid
            rw [hr] at hnone
            cases hnone

/-- Claim C2 witness: in the concrete environment the certify call is
in the trace, so the theorem yields a preceding successful register
call at explicit indices. -/
theorem c2_witness :
    Event.chainCall (.certify "blob-1" 3 [] []) ∈
      (store sampleConfig sampleEnv [[1, 2, 3]] sampleOptions).snd ∧
    ∃ (sid : String) (i j : Nat), i < j ∧
      (store sampleConfig sampleEnv [[1, 2, 3]] sampleOptions).snd[i]? =
        some (Event.chainCall (.register "blob-1" sid)) ∧
      (store sampleConfig sampleEnv [[1, 2, 3]] sampleOptions).snd[j]? =
        some (Event.chainCall (.certify "blob-1" 3 [] [])) ∧
      (sampleEnv.chain (.register "blob-1" sid)).created.head?.isSome = true :=
  ⟨by simp [store, purchaseStorage, uploadBlob, registerBlob, certifyBlob, sampleEnv,
      sampleChain, sampleHttp, uploadRequest, sampleConfig, sampleOptions],
   (c2_certify_only_after_register sampleConfig sampleEnv [[1, 2, 3]] sampleOptions).1
     "blob-1" 3 [] []
     (by simp [store, purchaseStorage, uploadBlob, registerBlob, certifyBlob, sampleEnv,
       sampleChain, sampleHttp, uploadRequest, sampleConfig, sampleOptions])⟩

end WalrusSeal

namespace WalrusSeal

/-- Claim C7: in every execution of the commit pipeline the storage
purchase chain call is issued at most once, and every register call in
the trace consumes the reservation object id returned by that single
purchase rather than purchasing again. -/
theorem c7_purchase_at_most_once
    (cfg : WalrusConfig) (env : WalrusEnv) (files : List (List Nat))
    (opts : WalrusStoreOptions) :
    ((store cfg env files opts).snd.filter Event.isPurchase).length ≤ 1 ∧
    (∀ bid sid, Event.chainCall (.register bid sid) ∈ (store cfg env files opts).snd →
      ∃ file rest ev, files = file :: rest ∧
        (env.chain (.purchase opts.epochs file.length)).storageEvent = some ev ∧
        sid = ev.storage_id) := by
  match files with
  | [] =>
    constructor
    · simp [store]
    · intro bid sid hmem
      simp [store] at hmem
  | file :: rest =>
    cases hp : (env.chain (.purchase opts.epochs file.length)).storageEvent with
    | none =>
      simp only [store, purchaseStorage_none hp]
      constructor
      · simp [Event.isPurchase]
      · intro bid sid hmem
        simp at hmem
    | some ev =>
      cases hu : (env.http (uploadRequest cfg file)).ok with
      | false =>
        simp only [store, purchaseStorage_some hp, uploadBlob_err hu]
        constructor
        · simp [Event.isPurchase, Event.isHttp]
        · intro bid sid hmem
          simp at hmem
      | true =>
        cases hr : (env.chain (.register (env.http (uploadRequest cfg file)).blobId
            ev.storage_id)).created.head? with
        | none =>
          simp only [store, purchaseStorage_some hp, uploadBlob_ok hu, registerBlob_none hr]
          constructor
          · simp [Event.isPurchase]
          · intro bid sid hmem
            simp at hmem
            exact ⟨file, rest, ev, rfl, hp, hmem.2⟩
        | some oid =>
          simp only [store, purchaseStorage_some hp, uploadBlob_ok hu, registerBlob_some hr,
            certifyBlob]
          constructor
          · simp [Event.isPurchase]
          · intro bid sid hmem
            simp at hmem
            exact ⟨file, rest, ev, rfl, hp, hmem.2⟩

/-- Claim C7 witness: the theorem evaluated in the concrete
environment, where the register call consumes `storage-object-1`, the
object id produced by the unique purchase call. -/
theorem c7_witness :
    Event.chainCall (.register "blob-1" "storage-object-1") ∈
      (store sampleConfig sampleEnv [[1, 2, 3]] sampleOptions).snd ∧
    ∃ file rest ev, ([[1, 2, 3]] : List (List Nat)) = file :: rest ∧
      (sampleEnv.chain (.purchase sampleOptions.epochs file.length)).storageEvent =
        some ev ∧
      "storage-object-1" = ev.storage_id :=
  ⟨by simp [store, purchaseStorage, uploadBlob, registerBlob, certifyBlob, sampleEnv,
      sampleChain, sampleHttp, uploadRequest, sampleConfig, sampleOptions],
   (c7_purchase_at_most_once sampleConfig sampleEnv [[1, 2, 3]] sampleOptions).2
     "blob-1" "storage-object-1"
     (by simp [store, purchaseStorage, uploadBlob, registerBlob, certifyBlob, sampleEnv,
       sampleChain, sampleHttp, uploadRequest, sampleConfig, sampleOptions])⟩

/-- Claim C9 counterexample: the upload phase issues
`PUT {publisher}/v1/store`, not `PUT {publisher}/v1/blobs`, and its
URL carries no query parameter at all (no `epochs`, `permanent` or
`deletable`). -/
theorem c9_counterexample :
    (store sampleConfig sampleEnv [[1, 2, 3]] sampleOptions).snd.filter Event.isHttp =
      [.httpCall ⟨"PUT", "https://publisher.example/v1/store", [1, 2, 3]⟩] ∧
    (uploadRequest sampleConfig [1, 2, 3]).url = sampleConfig.publisher ++ "/v1/store" ∧
    (uploadRequest sampleConfig [1, 2, 3]).url.data.contains '?' = false ∧
    (uploadRequest sampleConfig [1, 2, 3]).url ≠ sampleConfig.publisher ++ "/v1/blobs" :=
  ⟨rfl, rfl, by decide, by decide⟩

/-- Claim C9 (amended): `uploadBlob` issues exactly one HTTP request,
`PUT {publisher}/v1/store` with the raw payload bytes as body and no
query parameters; a response with `ok` yields the certificate fields
`blobId`, `epochNumber`, `nodes`, `signatures` read flat from the
response (no `newlyCreated`/`alreadyCertified` discrimination), and a
non-`ok` response fails with the upload error. -/
theorem c9_upload_uses_store_endpoint
    (cfg : WalrusConfig) (env : WalrusEnv) (data : List Nat) :
    (uploadBlob cfg env data).snd = [.httpCall (uploadRequest cfg data)] ∧
    (uploadRequest cfg data).method = "PUT" ∧
    (uploadRequest cfg data).url = cfg.publisher ++ "/v1/store" ∧
    (uploadRequest cfg data).body = data ∧
    ((env.http (uploadRequest cfg data)).ok = true →
      (uploadBlob cfg env data).fst = .ok
        ⟨(env.http (uploadRequest cfg data)).blobId,
         (env.http (uploadRequest cfg data)).epochNumber,
         (env.http (uploadRequest cfg data)).nodes,
         (env.http (uploadRequest cfg data)).signatures⟩) ∧
    ((env.http (uploadRequest cfg data)).ok = false →
      (uploadBlob cfg env data).fst =
        .error (.uploadFailed (env.http (uploadRequest cfg data)).statusText)) := by
  refine ⟨?_, rfl, rfl, rfl, fun h => ?_, fun h => ?_⟩
  · cases h : (env.http (uploadRequest cfg data)).ok <;> simp [uploadBlob, h]
  · rw [uploadBlob_ok h]
  · rw [uploadBlob_err h]

/-- Claim C9 witness: the amended theorem evaluated in the concrete
environment, where the upload response is `ok`. -/
theorem c9_witness :
    (uploadBlob sampleConfig sampleEnv [1, 2, 3]).snd =
      [.httpCall (uploadRequest sampleConfig [1, 2, 3])] ∧
    (uploadRequest sampleConfig [1, 2, 3]).method = "PUT" ∧
    (uploadRequest sampleConfig [1, 2, 3]).url = sampleConfig.publisher ++ "/v1/store" ∧
    (uploadRequest sampleConfig [1, 2, 3]).body = [1, 2, 3] ∧
    (uploadBlob sampleConfig sampleEnv [1, 2, 3]).fst = .ok ⟨"blob-1", 3, [], []⟩ :=
  ⟨(c9_upload_uses_store_endpoint sampleConfig sampleEnv [1, 2, 3]).1,
   rfl, rfl, rfl,
   (c9_upload_uses_store_endpoint sampleConfig sampleEnv [1, 2, 3]).2.2.2.2.1 rfl⟩

end WalrusSeal

namespace WalrusSeal

/-! ## Seal data model (from `src/types/seal.ts` and `src/services/seal.ts`) -/

/-- Key server descriptor, the fields of `SealKeyServerInfo` that
`verifyKeyServers` reads. -/
structure SealKeyServerInfo where
  id : String
  url : String
deriving DecidableEq, Repr

/-- Client configuration (`SealConfig`): key-server list and default
threshold. -/
structure SealConfig where
  keyServers : List SealKeyServerInfo
  defaultThreshold : Nat
deriving DecidableEq, Repr

/-- Hex-id normalization used for package ids throughout `seal.ts`:
`p.startsWith("0x") ? p : "0x" + p`. -/
def add0x (s : String) : String :=
  if s.data.take 2 = ['0', 'x'] then s else ⟨'0' :: 'x' :: s.data⟩

/-- Hex-id normalization used for policy ids and signatures:
`p.startsWith("0x") ? p.slice(2) : p`. -/
def strip0x (s : String) : String :=
  if s.data.take 2 = ['0', 'x'] then ⟨s.data.drop 2⟩ else s

/-- Modelled from the spec: the `SessionKey` object of the external
`@mysten/seal` SDK, which is not part of this repository.  The spec
(§3, §4.4) fixes the fields the wrapper relies on: bound address,
target package id, creation time, ttl, and the signed/unsigned flag,
here the optional attached signature. -/
structure SDKSessionKey where
  address : String
  packageId : String
  ttlMin : Nat
  createdAt : Nat
  signature : Option String
deriving DecidableEq, Repr

/-- Modelled from the spec: computed expiry of a session key,
creation time plus ttl (the wrapper computes the same value as
`Date.now() + ttlMin * 60 * 1000`). -/
def SDKSessionKey.expiresAt (k : SDKSessionKey) : Nat :=
  k.createdAt + k.ttlMin * 60 * 1000

/-- Modelled from the spec: the SDK `setPersonalMessageSignature`
attaches an external signature to the key. -/
def SDKSessionKey.setPersonalMessageSignature (k : SDKSessionKey) (sig : String) :
    SDKSessionKey :=
  { k with signature := some sig }

/-- Modelled from the spec: the SDK `getPersonalMessage` returns the
message the wallet is asked to sign; its exact content is opaque to
the wrapper, so it is rendered as a deterministic function of the key. -/
def SDKSessionKey.getPersonalMessage (k : SDKSessionKey) : String :=
  "seal-session:" ++ k.packageId ++ ":" ++ k.address

/-- Modelled from the spec: the parsed encrypted object (§3
EncryptedObject): header (package id, policy id, threshold, server
metadata reduced to the server count) plus ciphertext.  The wrapper
passes it around as opaque bytes. -/
structure SDKEncryptedObject where
  packageId : String
  id : String
  threshold : Nat
  serverCount : Nat
  ciphertext : List Nat
deriving DecidableEq, Repr

/-- Modelled from the spec: the threshold cipher of the external SDK,
abstracted to an encryption function, its decryption counterpart and
the raw symmetric backup key exposed as `encryptionResult.key`.  All
three take the normalized package id, policy id and threshold. -/
structure SealSDK where
  enc : String → String → Nat → List Nat → List Nat
  dec : String → String → Nat → List Nat → List Nat
  backup : String → String → Nat → List Nat → String

/-- Failures of the modelled SDK decrypt, following the taxonomy of
spec §4.3/§4.4/§7. -/
inductive SDKDecryptError where
  | expiredSession
  | incompatible
  | notSigned
  | policyDenied
  | quorumNotReached
deriving DecidableEq, Repr

/-- Modelled from the spec: `sealClient.encrypt({threshold, packageId,
id, data})` of the external SDK produces the encrypted object whose
header carries the policy identity and threshold. -/
def sdkEncrypt (sdk : SealSDK) (threshold : Nat) (packageId id : String)
    (data : List Nat) (serverCount : Nat) : SDKEncryptedObject :=
  ⟨packageId, id, threshold, serverCount, sdk.enc packageId id threshold data⟩

/-- Modelled from the spec: `sealClient.decrypt({data, sessionKey,
txBytes})` of the external SDK.  Expiry short-circuits first (§8: an
expired key fails `ExpiredSession`, never `PolicyDenied`), then the
single-purpose package binding (`Incompatible`, §4.4), then the signed
requirement of `isValid`, then the read-only policy check (`Denied`)
and the share quorum (`QuorumNotReached`, §4.5); only then is the
ciphertext decrypted.  `approve` is the key-server evaluation of the
policy-check transaction bytes and `responding` the number of key
servers that answered the share fan-out. -/
def sdkDecrypt (sdk : SealSDK) (now : Nat) (approve : List Nat → Bool)
    (responding : Nat) (obj : SDKEncryptedObject) (k : SDKSessionKey)
    (tx : List Nat) : Except SDKDecryptError (List Nat) :=
  if k.expiresAt ≤ now then .error .expiredSession
  else if k.packageId ≠ obj.packageId then .error .incompatible
  else if k.signature.isNone then .error .notSigned
  else if !(approve tx) then .error .policyDenied
  else if responding < obj.threshold then .error .quorumNotReached
  else .ok (sdk.dec obj.packageId obj.id obj.threshold obj.ciphertext)

/-- The session key record built by `createSessionKeyInternal`
(`SealSessionKey` in `src/types/seal.ts`); `key` is the underlying
SDK object, optional because `decrypt` and `signSessionKey` guard
against its absence. -/
structure SealSessionKey where
  id : String
  key : Option SDKSessionKey
  packageId : String
  address : String
  ttl : Nat
  createdAt : Nat
  expiresAt : Nat
  isActive : Bool
deriving DecidableEq, Repr

/-- Environment of a `SealService` call: the current time and the
optional wallet signing capability (`signPersonalMessage`), of which
the code only uses the returned `signature` string. -/
structure SealEnv where
  now : Nat
  signPersonalMessage : Option (String → String)

/-- Failures raised by the embedded `SealService` methods, one
constructor per reachable `throw` site. -/
inductive SealError where
  /-- Thrown as `Invalid packageId` in `encrypt`. -/
  | invalidPackageId
  /-- Thrown as `Invalid policy id` in `encrypt`. -/
  | invalidPolicyId
  /-- Thrown as `Data to encrypt cannot be empty` in `encrypt`. -/
  | emptyData
  /-- Thrown as `Wallet signing function not available` during session
  key creation, wrapped into `Session key creation failed`. -/
  | sessionKeySigningUnavailable
  /-- Thrown as `Transaction bytes required for decryption` in
  `decrypt`. -/
  | txBytesRequired
  /-- Thrown as `Session key object is missing key property` in
  `decrypt`. -/
  | missingKeyProperty
  /-- An SDK decrypt failure, rethrown as `Decryption failed` with the
  inner message. -/
  | decryptFailed (e : SDKDecryptError)
  /-- Thrown as `Invalid session key object - missing
  setPersonalMessageSignature method` in `signSessionKey`. -/
  | invalidSessionKeyObject
deriving DecidableEq, Repr

/-- Fallback wallet address used by `createSessionKeyInternal` when no
address is supplied. -/
def fallbackAddress : String :=
  "0xbf7d5d6172973a8ad84a8f6f09fbdf6499bdac17ca6a396fd5e62a5b76f4dbcf"

/-- The two key-server object ids hard-coded in
`initializeSealClient`. -/
def sealServerObjectIds : List String :=
  ["0x73d05d62c18d9374e3ea529e8e0ed6161da1a141a94d3f76ae3fe4e99356db75",
   "0xf5d14a81a982144ae441cd7d64b09027f116a468bd36e7eca494f750591623c8"]

/-! ## SealService operations (from `src/services/seal.ts`) -/

/-- `SealService.createSessionKeyInternal`: build the SDK session key
for the normalized package id, then immediately request a wallet
signature and attach it; without a signing capability, creation
fails.  The returned record has `isActive := true`. -/
def SealService.createSessionKeyInternal (env : SealEnv) (packageId : String)
    (ttlMin : Nat) (userAddress : Option String) :
    Except SealError SealSessionKey :=
  let address := userAddress.getD fallbackAddress
  let npid := add0x packageId
  let k0 : SDKSessionKey := ⟨address, npid, ttlMin, env.now, none⟩
  match env.signPersonalMessage with
  | none => .error .sessionKeySigningUnavailable
  | some signer =>
    let clean := strip0x (signer k0.getPersonalMessage)
    let k1 := k0.setPersonalMessageSignature clean
    .ok ⟨"session_" ++ toString env.now, some k1, npid, address, ttlMin, env.now,
         env.now + ttlMin * 60 * 1000, true⟩

/-- `SealService.createSessionKey`: public wrapper, delegates to
`createSessionKeyInternal`. -/
def SealService.createSessionKey (env : SealEnv) (packageId : String)
    (ttlMin : Nat) (userAddress : Option String) :
    Except SealError SealSessionKey :=
  SealService.createSessionKeyInternal env packageId ttlMin userAddress

/-- Result record of `SealService.encrypt`
(`SealEncryptionResult`). -/
structure SealEncryptionResult where
  encryptedData : SDKEncryptedObject
  sessionKey : SealSessionKey
  id : String
  packageId : String
  threshold : Nat
  backupKey : String
deriving DecidableEq, Repr

/-- Encryption policy (`SealEncryptionPolicy`), the fields `encrypt`
uses. -/
structure SealEncryptionPolicy where
  threshold : Nat
  packageId : String
  id : String
deriving DecidableEq, Repr

/-- `SealService.encrypt`: validate inputs, normalize the package id
(keep `0x`) and the policy id (strip `0x`), call the SDK encrypt, and
create a 10-minute session key for the same normalized package id. -/
def SealService.encrypt (env : SealEnv) (sdk : SealSDK) (data : List Nat)
    (policy : SealEncryptionPolicy) : Except SealError SealEncryptionResult :=
  if policy.packageId = "" then .error .invalidPackageId
  else if policy.id = "" then .error .invalidPolicyId
  else if data = [] then .error .emptyData
  else
    let npid := add0x policy.packageId
    let nid := strip0x policy.id
    let obj := sdkEncrypt sdk policy.threshold npid nid data sealServerObjectIds.length
    match SealService.createSessionKeyInternal env npid 10 none with
    | .error e => .error e
    | .ok sk =>
      .ok ⟨obj, sk, policy.id, npid, policy.threshold,
           sdk.backup npid nid policy.threshold data⟩

/-- Re-signing step of `SealService.decrypt`: when a wallet signer is
available the key receives a fresh signature (errors on that path are
swallowed by the code and simply leave the key as it was); without a
signer the key is used as is. -/
def resignedKey (env : SealEnv) (k : SDKSessionKey) : SDKSessionKey :=
  match env.signPersonalMessage with
  | none => k
  | some signer =>
    k.setPersonalMessageSignature (strip0x (signer k.getPersonalMessage))

/-- `SealService.decrypt`: require transaction bytes and a session key
object, opportunistically re-sign the key when a wallet signer is
available, then call the SDK decrypt, wrapping any SDK failure. -/
def SealService.decrypt (env : SealEnv) (sdk : SealSDK)
    (approve : List Nat → Bool) (responding : Nat)
    (encryptedData : SDKEncryptedObject) (sessionKey : SealSessionKey)
    (txBytes : Option (List Nat)) : Except SealError (List Nat) :=
  match txBytes with
  | none => .error .txBytesRequired
  | some tx =>
    match sessionKey.key with
    | none => .error .missingKeyProperty
    | some k =>
      match sdkDecrypt sdk env.now approve responding encryptedData
          (resignedKey env k) tx with
      | .ok d => .ok d
      | .error e => .error (.decryptFailed e)

/-- Signature coercion performed by `signSessionKey`: strip an
optional `0x`, then if the length is not 128 pad with `0` characters
and truncate to exactly 128 (`padEnd(128, "0").slice(0, 128)`). -/
def coerceSignature (signature : String) : String :=
  let normalized := strip0x signature
  if normalized.length ≠ 128 then
    ⟨(normalized.data ++ List.replicate (128 - normalized.length) '0').take 128⟩
  else normalized

/-- `SealService.signSessionKey`: fail only when the underlying key
object (with its `setPersonalMessageSignature` method) is missing;
otherwise attach the coerced signature and set `isActive`. -/
def SealService.signSessionKey (sessionKey : SealSessionKey) (signature : String) :
    Except SealError SealSessionKey :=
  match sessionKey.key with
  | none => .error .invalidSessionKeyObject
  | some k =>
    .ok { sessionKey with
          key := some (k.setPersonalMessageSignature (coerceSignature signature)),
          isActive := true }

/-- Response of a key server to the service-info request, the fields
`verifyKeyServers` reads. -/
structure ServiceResponse where
  ok : Bool
  objectId : String
deriving DecidableEq, Repr

/-- Per-server liveness+identity check inside `verifyKeyServers`: the
server id must be configured, the GET request must succeed (a `none`
response models a thrown network error, caught to `false`), and the
returned `objectId` must equal the requested server id. -/
def checkKeyServer (cfg : SealConfig) (fetchService : String → Option ServiceResponse)
    (serverId : String) : Bool :=
  match cfg.keyServers.find? (fun ks => ks.id == serverId) with
  | none => false
  | some ks =>
    match fetchService (ks.url ++ "/v1/service?service_id=" ++ serverId) with
    | none => false
    | some resp => resp.ok && (resp.objectId == serverId)

/-- `SealService.verifyKeyServers`: `every` over the per-server
checks. -/
def SealService.verifyKeyServers (cfg : SealConfig)
    (fetchService : String → Option ServiceResponse) (serverIds : List String) : Bool :=
  (serverIds.map (checkKeyServer cfg fetchService)).all (fun b => b)

end WalrusSeal

namespace WalrusSeal

/-! ## Lemmas about the re-signing step and the modelled SDK decrypt -/

theorem resignedKey_packageId (env : SealEnv) (k : SDKSessionKey) :
    (resignedKey env k).packageId = k.packageId := by
  cases h : env.signPersonalMessage <;>
    simp [resignedKey, h, SDKSessionKey.setPersonalMessageSignature]

theorem resignedKey_expiresAt (env : SealEnv) (k : SDKSessionKey) :
    (resignedKey env k).expiresAt = k.expiresAt := by
  cases h : env.signPersonalMessage <;>
    simp [resignedKey, h, SDKSessionKey.setPersonalMessageSignature,
      SDKSessionKey.expiresAt]

theorem resignedKey_signature_isSome (env : SealEnv) (k : SDKSessionKey)
    (h : k.signature.isSome = true) :
    (resignedKey env k).signature.isSome = true := by
  cases hs : env.signPersonalMessage <;>
    simp [resignedKey, hs, SDKSessionKey.setPersonalMessageSignature, h]

theorem sdkDecrypt_expired {sdk : SealSDK} {now : Nat} {approve : List Nat → Bool}
    {responding : Nat} {obj : SDKEncryptedObject} {k : SDKSessionKey} {tx : List Nat}
    (hexp : k.expiresAt ≤ now) :
    sdkDecrypt sdk now approve responding obj k tx = .error .expiredSession := by
  unfold sdkDecrypt
  rw [if_pos hexp]

theorem sdkDecrypt_incompatible {sdk : SealSDK} {now : Nat}
    {approve : List Nat → Bool} {responding : Nat} {obj : SDKEncryptedObject}
    {k : SDKSessionKey} {tx : List Nat}
    (hfresh : now < k.expiresAt) (hne : k.packageId ≠ obj.packageId) :
    sdkDecrypt sdk now approve responding obj k tx = .error .incompatible := by
  unfold sdkDecrypt
  rw [if_neg (by omega), if_pos hne]

theorem sdkDecrypt_ok {sdk : SealSDK} {now : Nat} {approve : List Nat → Bool}
    {responding : Nat} {obj : SDKEncryptedObject} {k : SDKSessionKey} {tx : List Nat}
    (hfresh : now < k.expiresAt) (hpkg : k.packageId = obj.packageId)
    (hsigned : k.signature.isSome = true) (happrove : approve tx = true)
    (hresp : obj.threshold ≤ responding) :
    sdkDecrypt sdk now approve responding obj k tx =
      .ok (sdk.dec obj.packageId obj.id obj.threshold obj.ciphertext) := by
  obtain ⟨v, hv⟩ := Option.isSome_iff_exists.mp hsigned
  unfold sdkDecrypt
  rw [if_neg (by omega), if_neg (by simp [hpkg]), if_neg (by simp [hv]),
    if_neg (by simp [happrove]), if_neg (by omega)]

theorem decrypt_some_key {env : SealEnv} {sdk : SealSDK} {approve : List Nat → Bool}
    {responding : Nat} {obj : SDKEncryptedObject} {sessionKey : SealSessionKey}
    {k : SDKSessionKey} {tx : List Nat} (hk : sessionKey.key = some k) :
    SealService.decrypt env sdk approve responding obj sessionKey (some tx) =
      match sdkDecrypt sdk env.now approve responding obj (resignedKey env k) tx with
      | .ok d => .ok d
      | .error e => .error (.decryptFailed e) := by
  simp [SealService.decrypt, hk]

end WalrusSeal

namespace WalrusSeal

/-! ## Concrete Seal fixtures for counterexamples and witnesses -/

/-- A concrete SDK whose cipher is the identity (satisfying the
round-trip contract trivially). -/
def identitySDK : SealSDK :=
  ⟨fun _ _ _ d => d, fun _ _ _ d => d, fun _ _ _ _ => "backup-key"⟩

/-- A concrete wallet signer returning a fixed signature string. -/
def sampleSigner : String → String := fun _ => "0xfeedface"

/-- Environment at time 1000 with a wallet signer attached. -/
def sealEnvSigned : SealEnv := ⟨1000, some sampleSigner⟩

/-- Environment at time 2000 without a wallet signer. -/
def sealEnvLater : SealEnv := ⟨2000, none⟩

/-- A concrete encryption policy: threshold 1 for package `0xpkg`. -/
def samplePolicy : SealEncryptionPolicy := ⟨1, "0xpkg", "0xpolicy"⟩

/-- A key-server policy oracle approving every transaction. -/
def approveAll : List Nat → Bool := fun _ => true

example :
    SealService.createSessionKeyInternal sealEnvSigned "0xpkg" 10 none =
      .ok ⟨"session_1000",
           some ⟨fallbackAddress, "0xpkg", 10, 1000, some "feedface"⟩,
           "0xpkg", fallbackAddress, 10, 1000, 1000 + 10 * 60 * 1000, true⟩ := by
  rfl

end WalrusSeal

namespace WalrusSeal

theorem all_map_self {α : Type} (l : List α) (f : α → Bool) :
    ((l.map f).all fun b => b) = l.all f := by
  induction l with
  | nil => rfl
  | cons x xs ih => simp [List.all_cons, ih]

theorem checkKeyServer_eq_true (cfg : SealConfig)
    (fetchService : String → Option ServiceResponse) (sid : String) :
    checkKeyServer cfg fetchService sid = true ↔
      ∃ ks, cfg.keyServers.find? (fun s => s.id == sid) = some ks ∧
        ∃ resp, fetchService (ks.url ++ "/v1/service?service_id=" ++ sid) = some resp ∧
          resp.ok = true ∧ resp.objectId = sid := by
  unfold checkKeyServer
  cases h1 : cfg.keyServers.find? (fun s => s.id == sid) with
  | none => simp [h1]
  | some ks =>
    cases h2 : fetchService (ks.url ++ "/v1/service?service_id=" ++ sid) with
    | none => simp [h1, h2]
    | some resp => simp [h1, h2, Bool.and_eq_true, beq_iff_eq]

/-- Claim C8: `verifyKeyServers` returns `true` exactly when every
listed server id passes its individual liveness+identity check: the
id is configured, the GET service-info request succeeds, and the
returned `objectId` equals the requested id; any unknown server,
failed request or identity mismatch yields `false`. -/
theorem c8_verify_key_servers_iff (cfg : SealConfig)
    (fetchService : String → Option ServiceResponse) (serverIds : List String) :
    SealService.verifyKeyServers cfg fetchService serverIds = true ↔
      ∀ sid ∈ serverIds,
        ∃ ks, cfg.keyServers.find? (fun s => s.id == sid) = some ks ∧
          ∃ resp, fetchService (ks.url ++ "/v1/service?service_id=" ++ sid) =
              some resp ∧
            resp.ok = true ∧ resp.objectId = sid := by
  unfold SealService.verifyKeyServers
  rw [all_map_self, List.all_eq_true]
  constructor
  · intro h sid hsid
    exact (checkKeyServer_eq_true cfg fetchService sid).mp (h sid hsid)
  · intro h sid hsid
    exact (checkKeyServer_eq_true cfg fetchService sid).mpr (h sid hsid)

/-- Concrete key-server configuration with two servers. -/
def sampleSealConfig : SealConfig :=
  ⟨[⟨"srv1", "https://ks1.example"⟩, ⟨"srv2", "https://ks2.example"⟩], 2⟩

/-- Concrete service-info oracle: both configured servers answer with
their own object id. -/
def sampleFetch : String → Option ServiceResponse := fun url =>
  if url = "https://ks1.example/v1/service?service_id=srv1" then some ⟨true, "srv1"⟩
  else if url = "https://ks2.example/v1/service?service_id=srv2" then
    some ⟨true, "srv2"⟩
  else none

/-- Claim C8 witness: both concrete servers pass their checks, so
verification succeeds. -/
theorem c8_witness :
    SealService.verifyKeyServers sampleSealConfig sampleFetch ["srv1", "srv2"] =
      true :=
  (c8_verify_key_servers_iff sampleSealConfig sampleFetch ["srv1", "srv2"]).mpr (by
    intro sid hsid
    simp only [List.mem_cons, List.not_mem_nil, or_false] at hsid
    rcases hsid with rfl | rfl
    · exact ⟨⟨"srv1", "https://ks1.example"⟩, by decide, ⟨true, "srv1"⟩,
        by decide, rfl, rfl⟩
    · exact ⟨⟨"srv2", "https://ks2.example"⟩, by decide, ⟨true, "srv2"⟩,
        by decide, rfl, rfl⟩)

theorem coerceSignature_length (signature : String) :
    (coerceSignature signature).length = 128 := by
  unfold coerceSignature
  by_cases h : (strip0x signature).length = 128
  · simp [h]
  · simp only [h, ne_eq, not_false_iff, if_true]
    show (((strip0x signature).data ++
        List.replicate (128 - (strip0x signature).length) '0').take 128).length = 128
    rw [List.length_take, List.length_append, List.length_replicate]
    have hl : (strip0x signature).length = (strip0x signature).data.length := rfl
    omega

/-- Claim C10: `signSessionKey` never rejects a signature for its
length: the signature, stripped of an optional `0x`, is padded with
`0` characters or truncated to exactly 128 characters, attached to the
underlying key, and the session key is marked active; the only failure
case is a session key record with no underlying key object (and hence
no `setPersonalMessageSignature` method). -/
theorem c10_sign_session_key (sessionKey : SealSessionKey) (signature : String) :
    (coerceSignature signature).length = 128 ∧
    (∀ k, sessionKey.key = some k →
      SealService.signSessionKey sessionKey signature =
        .ok { sessionKey with
              key := some (k.setPersonalMessageSignature (coerceSignature signature)),
              isActive := true }) ∧
    (sessionKey.key = none →
      SealService.signSessionKey sessionKey signature =
        .error .invalidSessionKeyObject) := by
  refine ⟨coerceSignature_length signature, ?_, ?_⟩
  · intro k hk
    simp [SealService.signSessionKey, hk]
  · intro hk
    simp [SealService.signSessionKey, hk]

/-- Claim C10 witness: a 4-character signature `abcd` (after stripping
`0x`) is accepted, padded to 128 characters and attached, with the key
marked active. -/
theorem c10_witness :
    (coerceSignature "0xabcd").length = 128 ∧
    SealService.signSessionKey
      ⟨"session_0", some ⟨fallbackAddress, "0xpkg", 10, 0, none⟩, "0xpkg",
       fallbackAddress, 10, 0, 600000, false⟩ "0xabcd" =
      .ok ⟨"session_0",
           some ⟨fallbackAddress, "0xpkg", 10, 0, some (coerceSignature "0xabcd")⟩,
           "0xpkg", fallbackAddress, 10, 0, 600000, true⟩ :=
  ⟨(c10_sign_session_key
      ⟨"session_0", some ⟨fallbackAddress, "0xpkg", 10, 0, none⟩, "0xpkg",
       fallbackAddress, 10, 0, 600000, false⟩ "0xabcd").1,
   (c10_sign_session_key
      ⟨"session_0", some ⟨fallbackAddress, "0xpkg", 10, 0, none⟩, "0xpkg",
       fallbackAddress, 10, 0, 600000, false⟩ "0xabcd").2.1
     ⟨fallbackAddress, "0xpkg", 10, 0, none⟩ rfl⟩

end WalrusSeal

namespace WalrusSeal

/-- Claim C4: decrypting with a session key whose expiry has passed
(`expiresAt ≤ now`) fails with the expired-session error (wrapped by
the code into its generic decryption failure), and in particular never
with the policy-denied error. -/
theorem c4_expired_key_fails_expired_session (env : SealEnv) (sdk : SealSDK)
    (approve : List Nat → Bool) (responding : Nat) (obj : SDKEncryptedObject)
    (sessionKey : SealSessionKey) (k : SDKSessionKey) (tx : List Nat)
    (hk : sessionKey.key = some k) (hexp : k.expiresAt ≤ env.now) :
    SealService.decrypt env sdk approve responding obj sessionKey (some tx) =
      .error (.decryptFailed .expiredSession) ∧
    SealService.decrypt env sdk approve responding obj sessionKey (some tx) ≠
      .error (.decryptFailed .policyDenied) := by
  have h1 : (resignedKey env k).expiresAt ≤ env.now := by
    rw [resignedKey_expiresAt]
    exact hexp
  rw [decrypt_some_key hk, sdkDecrypt_expired h1]
  exact ⟨rfl, by simp⟩

/-- A concrete already-expired session key (ttl 0, created at time 0). -/
def expiredKey : SDKSessionKey := ⟨fallbackAddress, "0xpkg", 0, 0, some "feedface"⟩

/-- The session key record wrapping `expiredKey`. -/
def expiredSessionKey : SealSessionKey :=
  ⟨"session_0", some expiredKey, "0xpkg", fallbackAddress, 0, 0, 0, true⟩

/-- A concrete encrypted object for package `0xpkg`. -/
def sampleObject : SDKEncryptedObject := ⟨"0xpkg", "policy", 1, 2, [7, 8]⟩

/-- Claim C4 witness: at time 2000 the key expired at time 0 makes
decrypt fail with the expired-session error. -/
theorem c4_witness :
    SealService.decrypt sealEnvLater identitySDK approveAll 2 sampleObject
      expiredSessionKey (some [0]) = .error (.decryptFailed .expiredSession) ∧
    SealService.decrypt sealEnvLater identitySDK approveAll 2 sampleObject
      expiredSessionKey (some [0]) ≠ .error (.decryptFailed .policyDenied) :=
  c4_expired_key_fails_expired_session sealEnvLater identitySDK approveAll 2
    sampleObject expiredSessionKey expiredKey [0] rfl (by decide)

/-- Claim C5: a session key created for package `A`, used before its
expiry against an encrypted object whose policy package differs from
the canonical (0x-prefixed) form of `A`, makes decrypt fail with the
incompatible error; it never succeeds. -/
theorem c5_package_mismatch_incompatible (envC envD : SealEnv) (sdk : SealSDK)
    (approve : List Nat → Bool) (responding : Nat) (obj : SDKEncryptedObject)
    (pkgA : String) (ttlMin : Nat) (userAddress : Option String)
    (sk : SealSessionKey) (tx : List Nat)
    (hcreate : SealService.createSessionKey envC pkgA ttlMin userAddress = .ok sk)
    (hne : add0x pkgA ≠ obj.packageId)
    (hfresh : envD.now < envC.now + ttlMin * 60 * 1000) :
    SealService.decrypt envD sdk approve responding obj sk (some tx) =
      .error (.decryptFailed .incompatible) ∧
    ∀ d, SealService.decrypt envD sdk approve responding obj sk (some tx) ≠
      .ok d := by
  cases hs : envC.signPersonalMessage with
  | none =>
    exfalso
    simp [SealService.createSessionKey, SealService.createSessionKeyInternal, hs]
      at hcreate
  | some f =>
    simp only [SealService.createSessionKey, SealService.createSessionKeyInternal,
      hs, SDKSessionKey.setPersonalMessageSignature, Except.ok.injEq] at hcreate
    subst hcreate
    rw [decrypt_some_key rfl]
    have h1 : envD.now <
        (resignedKey envD
          ⟨userAddress.getD fallbackAddress, add0x pkgA, ttlMin, envC.now,
           some (strip0x (f (SDKSessionKey.getPersonalMessage
             ⟨userAddress.getD fallbackAddress, add0x pkgA, ttlMin, envC.now,
              none⟩)))⟩).expiresAt := by
      rw [resignedKey_expiresAt]
      simpa [SDKSessionKey.expiresAt] using hfresh
    have h2 : (resignedKey envD
        ⟨userAddress.getD fallbackAddress, add0x pkgA, ttlMin, envC.now,
         some (strip0x (f (SDKSessionKey.getPersonalMessage
           ⟨userAddress.getD fallbackAddress, add0x pkgA, ttlMin, envC.now,
            none⟩)))⟩).packageId ≠ obj.packageId := by
      rw [resignedKey_packageId]
      exact hne
    rw [sdkDecrypt_incompatible h1 h2]
    exact ⟨rfl, by simp⟩

/-- A concrete encrypted object for a different package `0xother`. -/
def otherPackageObject : SDKEncryptedObject := ⟨"0xother", "policy", 1, 2, [7, 8]⟩

/-- Claim C5 witness: the session key created for `0xpkg` at time 1000
fails with the incompatible error against a `0xother` object at time
2000 (well before expiry). -/
theorem c5_witness :
    SealService.decrypt sealEnvLater identitySDK approveAll 2 otherPackageObject
      ⟨"session_1000", some ⟨fallbackAddress, "0xpkg", 10, 1000, some "feedface"⟩,
       "0xpkg", fallbackAddress, 10, 1000, 601000, true⟩ (some [0]) =
      .error (.decryptFailed .incompatible) ∧
    ∀ d, SealService.decrypt sealEnvLater identitySDK approveAll 2
      otherPackageObject
      ⟨"session_1000", some ⟨fallbackAddress, "0xpkg", 10, 1000, some "feedface"⟩,
       "0xpkg", fallbackAddress, 10, 1000, 601000, true⟩ (some [0]) ≠ .ok d :=
  c5_package_mismatch_incompatible sealEnvSigned sealEnvLater identitySDK
    approveAll 2 otherPackageObject "0xpkg" 10 none _ [0] rfl (by decide) (by decide)

/-- Claim C6 counterexample: `createSessionKey` does not return an
unsigned key: at a concrete input it returns a key whose underlying
SDK object already carries a wallet signature and whose `isActive`
flag is already `true`. -/
theorem c6_counterexample :
    SealService.createSessionKey sealEnvSigned "0xpkg" 10 none =
      .ok ⟨"session_1000",
           some ⟨fallbackAddress, "0xpkg", 10, 1000, some "feedface"⟩,
           "0xpkg", fallbackAddress, 10, 1000, 601000, true⟩ := by
  rfl

/-- Claim C6 (amended): `createSessionKey` signs the key during
creation: with a wallet signing capability available it returns a key
that already carries the (0x-stripped) wallet signature and has
`isActive = true`; without a signing capability it fails instead of
returning an unsigned key. -/
theorem c6_create_returns_active_signed_key (env : SealEnv) (packageId : String)
    (ttlMin : Nat) (userAddress : Option String) :
    (env.signPersonalMessage = none →
      SealService.createSessionKey env packageId ttlMin userAddress =
        .error .sessionKeySigningUnavailable) ∧
    (∀ f, env.signPersonalMessage = some f →
      SealService.createSessionKey env packageId ttlMin userAddress =
        .ok ⟨"session_" ++ toString env.now,
             some ⟨userAddress.getD fallbackAddress, add0x packageId, ttlMin,
                   env.now,
                   some (strip0x (f (SDKSessionKey.getPersonalMessage
                     ⟨userAddress.getD fallbackAddress, add0x packageId, ttlMin,
                      env.now, none⟩)))⟩,
             add0x packageId, userAddress.getD fallbackAddress, ttlMin, env.now,
             env.now + ttlMin * 60 * 1000, true⟩) := by
  constructor
  · intro h
    simp [SealService.createSessionKey, SealService.createSessionKeyInternal, h]
  · intro f h
    simp [SealService.createSessionKey, SealService.createSessionKeyInternal, h,
      SDKSessionKey.setPersonalMessageSignature]

/-- Claim C6 witness: the amended theorem at a concrete input without
a `0x` tag on the package id and with an explicit user address. -/
theorem c6_witness :
    SealService.createSessionKey sealEnvSigned "abc" 5 (some "0xuser") =
      .ok ⟨"session_1000", some ⟨"0xuser", "0xabc", 5, 1000, some "feedface"⟩,
           "0xabc", "0xuser", 5, 1000, 301000, true⟩ :=
  (c6_create_returns_active_signed_key sealEnvSigned "abc" 5 (some "0xuser")).2
    sampleSigner rfl

end WalrusSeal

namespace WalrusSeal

theorem add0x_idem (s : String) : add0x (add0x s) = add0x s := by
  unfold add0x
  by_cases h : s.data.take 2 = ['0', 'x']
  · simp [h]
  · simp [h]

/-- Claim C3: for every payload and policy with a valid threshold
(at most the number of key servers, all of which respond), encrypting
and then decrypting with the session key produced by `encrypt`, a
policy-check transaction the key servers approve, and a decryption
time before the session key expiry, returns exactly the original
bytes.  The external SDK cipher is abstracted by its round-trip
contract `hrt`. -/
theorem c3_encrypt_decrypt_roundtrip (envC envD : SealEnv) (sdk : SealSDK)
    (approve : List Nat → Bool) (responding : Nat) (data : List Nat)
    (policy : SealEncryptionPolicy) (tx : List Nat) (f : String → String)
    (hrt : ∀ p i t d, sdk.dec p i t (sdk.enc p i t d) = d)
    (hs : envC.signPersonalMessage = some f)
    (hpkg : policy.packageId ≠ "") (hid : policy.id ≠ "") (hdata : data ≠ [])
    (hthresh : policy.threshold ≤ sealServerObjectIds.length)
    (hresp : responding = sealServerObjectIds.length)
    (happrove : approve tx = true)
    (hfresh : envD.now < envC.now + 10 * 60 * 1000) :
    ∃ res, SealService.encrypt envC sdk data policy = .ok res ∧
      SealService.decrypt envD sdk approve responding res.encryptedData
        res.sessionKey (some tx) = .ok data := by
  have henc :
      SealService.encrypt envC sdk data policy =
        .ok ⟨sdkEncrypt sdk policy.threshold (add0x policy.packageId)
               (strip0x policy.id) data sealServerObjectIds.length,
             ⟨"session_" ++ toString envC.now,
              some ⟨fallbackAddress, add0x policy.packageId, 10, envC.now,
                    some (strip0x (f (SDKSessionKey.getPersonalMessage
                      ⟨fallbackAddress, add0x policy.packageId, 10, envC.now,
                       none⟩)))⟩,
              add0x policy.packageId, fallbackAddress, 10, envC.now,
              envC.now + 10 * 60 * 1000, true⟩,
             policy.id, add0x policy.packageId, policy.threshold,
             sdk.backup (add0x policy.packageId) (strip0x policy.id)
               policy.threshold data⟩ := by
    simp [SealService.encrypt, SealService.createSessionKeyInternal, hs,
      SDKSessionKey.setPersonalMessageSignature, hpkg, hid, hdata, add0x_idem]
  refine ⟨_, henc, ?_⟩
  rw [decrypt_some_key rfl]
  have h1 : envD.now <
      (resignedKey envD ⟨fallbackAddress, add0x policy.packageId, 10, envC.now,
        some (strip0x (f (SDKSessionKey.getPersonalMessage
          ⟨fallbackAddress, add0x policy.packageId, 10, envC.now,
           none⟩)))⟩).expiresAt := by
    rw [resignedKey_expiresAt]
    simpa [SDKSessionKey.expiresAt] using hfresh
  have h2 : (resignedKey envD ⟨fallbackAddress, add0x policy.packageId, 10,
      envC.now, some (strip0x (f (SDKSessionKey.getPersonalMessage
        ⟨fallbackAddress, add0x policy.packageId, 10, envC.now,
         none⟩)))⟩).packageId =
      (sdkEncrypt sdk policy.threshold (add0x policy.packageId)
        (strip0x policy.id) data sealServerObjectIds.length).packageId := by
    rw [resignedKey_packageId]
    rfl
  have h3 : (resignedKey envD ⟨fallbackAddress, add0x policy.packageId, 10,
      envC.now, some (strip0x (f (SDKSessionKey.getPersonalMessage
        ⟨fallbackAddress, add0x policy.packageId, 10, envC.now,
         none⟩)))⟩).signature.isSome = true := by
    apply resignedKey_signature_isSome
    rfl
  have h5 : (sdkEncrypt sdk policy.threshold (add0x policy.packageId)
      (strip0x policy.id) data sealServerObjectIds.length).threshold ≤
      responding := by
    rw [hresp]
    exact hthresh
  rw [sdkDecrypt_ok h1 h2 h3 happrove h5]
  simp [sdkEncrypt, hrt]

/-- Claim C3 witness: with the identity SDK cipher, encrypting
`[7, 8, 9]` under `samplePolicy` at time 1000 and decrypting at time
2000 with both key servers responding returns `[7, 8, 9]`. -/
theorem c3_witness :
    ∃ res, SealService.encrypt sealEnvSigned identitySDK [7, 8, 9] samplePolicy =
        .ok res ∧
      SealService.decrypt sealEnvLater identitySDK approveAll 2 res.encryptedData
        res.sessionKey (some [0]) = .ok [7, 8, 9] :=
  c3_encrypt_decrypt_roundtrip sealEnvSigned sealEnvLater identitySDK approveAll 2
    [7, 8, 9] samplePolicy [0] sampleSigner (fun _ _ _ _ => rfl) rfl (by decide)
    (by decide) (by decide) (by decide) rfl rfl (by decide)

end WalrusSeal
